import Mathlib

/-!
Shallow embedding of the problem-3 cache / metrics / alerting layer
(`services/cache_service.py`, `services/search_service.py`,
`core/monitoring.py`, `dashboard/monitoring_dashboard.py`) and proofs
about it.

Modelling conventions:
* Wall-clock time is an explicit `now : Int` argument (seconds); the code's
  `time.time()` calls inside one method all read the same instant.
* Python values stored in the cache are a small inductive `PyVal`; `None`
  is `PyVal.pynone`, which is also the "absent" result of `get`, exactly as
  in the source where `get` returns `None` on a miss.
* `_serialize` / `_deserialize` are modelled as the identity on the stored
  value (round-trip abstraction); compression tagging is not relevant to
  any claim and is dropped from the value model.
* The Redis tier is an association list of full keys to entries with an
  absolute expiry; a `failing` flag models every shared-tier operation
  raising (connection loss).  Redis returns a key only while unexpired.
* Python dicts are insertion-ordered association lists (`alookup`,
  `ainsert`, `aerase`); on overwrite `ainsert` moves the binding to the
  end, which no claim observes (only lookups, sizes and membership are
  used).
-/

namespace Problem3

/-- A cached Python value.  `pynone` is Python's `None`. -/
inductive PyVal where
  | pynone
  | pyint (n : Int)
  | pystr (s : String)
  | pybool (b : Bool)
  deriving DecidableEq

/-- The setting `CACHE_DEFAULT_TTL` (`core/config.py`). -/
def CACHE_DEFAULT_TTL : Int := 3600

/-- The setting `CACHE_SHORT_TTL` (`core/config.py`). -/
def CACHE_SHORT_TTL : Int := 300

/-- The setting `CACHE_PREFIX` (`core/config.py`). -/
def CACHE_PREFIX : String := "perf_demo"

/-- Python `min` on integers (returns the first argument on ties). -/
def imin (a b : Int) : Int := if a ≤ b then a else b

/-- Python `min` on rationals (returns the first argument on ties). -/
def qmin (a b : ℚ) : ℚ := if a ≤ b then a else b

/-- Python `max` on rationals (returns the second argument on ties). -/
def qmax (a b : ℚ) : ℚ := if b ≤ a then a else b

/-- Association-list lookup, modelling Python `d[k]` / `d.get(k)`. -/
def alookup [DecidableEq κ] (k : κ) : List (κ × α) → Option α
  | [] => none
  | (k2, v) :: rest => if k2 = k then some v else alookup k rest

/-- Remove every binding of `k`, modelling Python `del d[k]`. -/
def aerase [DecidableEq κ] (k : κ) (l : List (κ × α)) : List (κ × α) :=
  l.filter (fun p => p.1 ≠ k)

/-- Bind `k` to `v`, modelling Python `d[k] = v`. -/
def ainsert [DecidableEq κ] (k : κ) (v : α) (l : List (κ × α)) : List (κ × α) :=
  aerase k l ++ [(k, v)]

/-- A local-tier entry: `{"data": ..., "expires_at": ...}`. -/
structure LocalEntry where
  data : PyVal
  expires_at : Int
  deriving DecidableEq

/-- A shared-tier (Redis) entry written by `setex`: value plus absolute
expiry.  The serialized byte payload is abstracted to the value itself. -/
structure RedisEntry where
  data : PyVal
  expires_at : Int
  deriving DecidableEq

/-- The shared tier.  `failing = true` models an unreachable backend:
every operation on it raises, which the service catches. -/
structure RedisTier where
  entries : List (String × RedisEntry)
  failing : Bool
  deriving DecidableEq

/-- The `cache_stats` counter dictionary of `CacheService`. -/
structure CacheStats where
  hits : Nat
  misses : Nat
  sets : Nat
  deletes : Nat
  errors : Nat
  deriving DecidableEq

/-- All-zero counters, as in `CacheService.__init__`. -/
def CacheStats.init : CacheStats := ⟨0, 0, 0, 0, 0⟩

/-- State of `CacheService` (`services/cache_service.py`):
local tier, optional Redis client, counters. -/
structure CacheService where
  local_cache : List (String × LocalEntry)
  redis_client : Option RedisTier
  cache_stats : CacheStats
  deriving DecidableEq

/-- A fresh service whose Redis connection succeeded with store `r`. -/
def CacheService.fresh (r : RedisTier) : CacheService :=
  ⟨[], some r, CacheStats.init⟩

/-- The method `_get_cache_key`: prepend the configured prefix. -/
def fullKey (key : String) : String := CACHE_PREFIX ++ ":" ++ key

/-- The Redis phase of `CacheService.get`: consulted after the local tier
missed (or its entry expired and was deleted).  A failing backend raises,
which the service catches, counting an error — not a miss — and returning
`None`. -/
def CacheService.getRedisPhase (s : CacheService) (now : Int) (key : String) :
    PyVal × CacheService :=
  match s.redis_client with
  | some r =>
    if r.failing then
      (PyVal.pynone,
        { s with cache_stats := { s.cache_stats with errors := s.cache_stats.errors + 1 } })
    else
      match alookup (fullKey key) r.entries with
      | some re =>
        if re.expires_at > now then
          let s2 := { s with
            local_cache := ainsert key ⟨re.data, now + CACHE_SHORT_TTL⟩ s.local_cache }
          (re.data,
            { s2 with cache_stats := { s2.cache_stats with hits := s2.cache_stats.hits + 1 } })
        else
          (PyVal.pynone,
            { s with cache_stats := { s.cache_stats with misses := s.cache_stats.misses + 1 } })
      | none =>
        (PyVal.pynone,
          { s with cache_stats := { s.cache_stats with misses := s.cache_stats.misses + 1 } })
  | none =>
    (PyVal.pynone,
      { s with cache_stats := { s.cache_stats with misses := s.cache_stats.misses + 1 } })

/-- The method `CacheService.get`: local tier first (expired entries are deleted on
sight), then the shared tier; a shared hit repopulates the local tier with
`expires_at = now + CACHE_SHORT_TTL` — the fixed short TTL, not capped by
the remaining shared TTL. -/
def CacheService.get (s : CacheService) (now : Int) (key : String) :
    PyVal × CacheService :=
  match alookup key s.local_cache with
  | some entry =>
    if entry.expires_at > now then
      (entry.data,
        { s with cache_stats := { s.cache_stats with hits := s.cache_stats.hits + 1 } })
    else
      CacheService.getRedisPhase { s with local_cache := aerase key s.local_cache } now key
  | none => CacheService.getRedisPhase s now key

/-- Python `ttl or settings.CACHE_DEFAULT_TTL`: `None` and `0` are falsy
and fall back to the default. -/
def effTtl (ttl : Option Int) : Int :=
  match ttl with
  | none => CACHE_DEFAULT_TTL
  | some t => if t = 0 then CACHE_DEFAULT_TTL else t

/-- The method `CacheService.set`: the local tier is written first with
`expires_at = now + min(ttl, CACHE_SHORT_TTL)`; then `setex` writes the
shared tier with the full ttl.  A failing backend (or a non-positive ttl,
which `setex` rejects) raises after the local write; the service catches
it, logs, counts an error and returns `False`. -/
def CacheService.set (s : CacheService) (now : Int) (key : String)
    (value : PyVal) (ttl : Option Int) : Bool × CacheService :=
  let t := effTtl ttl
  let s1 := { s with
    local_cache := ainsert key ⟨value, now + imin t CACHE_SHORT_TTL⟩ s.local_cache }
  match s1.redis_client with
  | some r =>
    if r.failing then
      (false, { s1 with cache_stats := { s1.cache_stats with errors := s1.cache_stats.errors + 1 } })
    else if t ≤ 0 then
      (false, { s1 with cache_stats := { s1.cache_stats with errors := s1.cache_stats.errors + 1 } })
    else
      let r2 := { r with entries := ainsert (fullKey key) ⟨value, now + t⟩ r.entries }
      let s2 := { s1 with redis_client := some r2 }
      (true, { s2 with cache_stats := { s2.cache_stats with sets := s2.cache_stats.sets + 1 } })
  | none =>
    (true, { s1 with cache_stats := { s1.cache_stats with sets := s1.cache_stats.sets + 1 } })

/-- The method `CacheService.delete`: exact-key removal from both tiers.  A failing
backend raises after the local removal; caught, counted as an error. -/
def CacheService.delete (s : CacheService) (key : String) : Bool × CacheService :=
  let s1 := { s with local_cache := aerase key s.local_cache }
  match s1.redis_client with
  | some r =>
    if r.failing then
      (false, { s1 with cache_stats := { s1.cache_stats with errors := s1.cache_stats.errors + 1 } })
    else
      let r2 := { r with entries := aerase (fullKey key) r.entries }
      let s2 := { s1 with redis_client := some r2 }
      (true, { s2 with cache_stats := { s2.cache_stats with deletes := s2.cache_stats.deletes + 1 } })
  | none =>
    (true, { s1 with cache_stats := { s1.cache_stats with deletes := s1.cache_stats.deletes + 1 } })

/-- Redis glob matching (`KEYS pattern`), fuelled so that recursion is
structural: `*` matches any run of characters, `?` any one character,
anything else itself.  Every recursive call shrinks `pattern.length +
s.length`, so the initial fuel below never runs out. -/
def globMatchF : Nat → List Char → List Char → Bool
  | 0, _, _ => false
  | _ + 1, [], [] => true
  | _ + 1, [], _ :: _ => false
  | fuel + 1, p :: ps, s =>
    if p = '*' then
      globMatchF fuel ps s ||
        (match s with
         | [] => false
         | _ :: s2 => globMatchF fuel (p :: ps) s2)
    else
      match s with
      | [] => false
      | c :: cs => (p = '?' || p = c) && globMatchF fuel ps cs

/-- Glob matching with sufficient fuel. -/
def globMatch (p s : List Char) : Bool := globMatchF (p.length + s.length + 1) p s

/-- Glob matching on strings. -/
def stringGlob (pattern s : String) : Bool := globMatch pattern.toList s.toList

/-- The `KEYS`-visibility predicate used by `delete_pattern`: the stored
full key matches the full pattern and the entry is still live (Redis never
returns logically expired keys). -/
def redisKeyMatches (now : Int) (fullPattern : String) (p : String × RedisEntry) : Bool :=
  stringGlob fullPattern p.1 && decide (p.2.expires_at > now)

/-- The method `delete_pattern`: `KEYS` on the prefixed pattern, then
`DEL` of every returned key, returning the deleted count.  The local tier
is not touched at all. -/
def CacheService.delete_pattern (s : CacheService) (now : Int) (pattern : String) :
    Nat × CacheService :=
  match s.redis_client with
  | none => (0, s)
  | some r =>
    if r.failing then
      (0, { s with cache_stats := { s.cache_stats with errors := s.cache_stats.errors + 1 } })
    else
      let fp := fullKey pattern
      let matched := r.entries.filter (redisKeyMatches now fp)
      if matched.length > 0 then
        let r2 := { r with entries := r.entries.filter (fun p => !(redisKeyMatches now fp p)) }
        let st2 := { s.cache_stats with deletes := s.cache_stats.deletes + matched.length }
        (matched.length, { s with redis_client := some r2, cache_stats := st2 })
      else (0, s)

/-- The method `get_or_set`: `get`, and on a `None` result invoke the
producer and `set` its value.  The producer is modelled by the value it
returns. -/
def CacheService.get_or_set (s : CacheService) (now : Int) (key : String)
    (factoryValue : PyVal) (ttl : Option Int) : PyVal × CacheService :=
  let p := s.get now key
  if p.1 ≠ PyVal.pynone then p
  else
    (factoryValue, (p.2.set now key factoryValue ttl).2)

/-- The snapshot returned by `CacheService.get_stats`.  `hit_rate` is the
exact percentage (the source's final `round(·, 2)` is not modelled; no
claim mentions it). -/
structure StatsView where
  hits : Nat
  misses : Nat
  hit_rate : ℚ
  sets : Nat
  deletes : Nat
  errors : Nat
  local_cache_size : Nat
  redis_connected : Bool
  deriving DecidableEq

/-- The method `CacheService.get_stats`. -/
def CacheService.get_stats (s : CacheService) : StatsView :=
  let total := s.cache_stats.hits + s.cache_stats.misses
  { hits := s.cache_stats.hits
    misses := s.cache_stats.misses
    hit_rate := if total > 0 then (s.cache_stats.hits : ℚ) / (total : ℚ) * 100 else 0
    sets := s.cache_stats.sets
    deletes := s.cache_stats.deletes
    errors := s.cache_stats.errors
    local_cache_size := s.local_cache.length
    redis_connected := s.redis_client.isSome }

/-!
### Metrics aggregator (`core/monitoring.py`)

Fields of the source that no claim touches are omitted from the state:
the per-metric timestamp / user / ip / memory / cpu columns, the
`throughput` map (needs wall-clock filtering), the psutil system probes,
and the background cleanup tasks.  `float` arithmetic is modelled with
exact rationals; every quantity the claims evaluate is reached by
sorting, indexing, counting, or a single division, where the rational
and float results agree on the inputs used.
-/

/-- One entry of the `metrics` deque (the claim-relevant columns of
`PerformanceMetric`). -/
structure PerfMetric where
  endpoint : String
  method : String
  response_time : ℚ
  status_code : Int
  cache_hit : Bool
  database_queries : Nat
  database_time : ℚ
  deriving DecidableEq

/-- One per-endpoint running-aggregate record (`endpoint_stats[endpoint]`).
`min_response_time` is `none` while still at its initial `float("inf")`. -/
structure EndpointStats where
  total_requests : Nat
  total_response_time : ℚ
  min_response_time : Option ℚ
  max_response_time : ℚ
  status_codes : List (Int × Nat)
  cache_hits : Nat
  database_queries : Nat
  database_time : ℚ
  errors : Nat
  deriving DecidableEq

/-- The defaultdict initial value for an endpoint. -/
def EndpointStats.dflt : EndpointStats := ⟨0, 0, none, 0, [], 0, 0, 0, 0⟩

/-- The `database_performance` running totals (its stored `average_time`
slot is never updated by `record_*` and is recomputed by `get_metrics`,
so it is not part of the state). -/
structure DbPerf where
  total_queries : Nat
  total_time : ℚ
  slow_queries : Nat
  deriving DecidableEq

/-- The setting `SLOW_QUERY_THRESHOLD` (seconds). -/
def SLOW_QUERY_THRESHOLD : ℚ := 1

/-- The deque capacity: `deque(maxlen=10000)`. -/
def METRICS_MAXLEN : Nat := 10000

/-- State of `PerformanceMonitor`. -/
structure PerformanceMonitor where
  metrics : List PerfMetric
  endpoint_stats : List (String × EndpointStats)
  cache_stats : List (String × Nat)
  error_rates : List (String × ℚ)
  database_performance : DbPerf
  deriving DecidableEq

/-- A freshly constructed monitor. -/
def PerformanceMonitor.init : PerformanceMonitor := ⟨[], [], [], [], ⟨0, 0, 0⟩⟩

/-- Append to a `deque(maxlen=cap)`: once `cap` entries are held the
oldest is silently dropped. -/
def pushMax (cap : Nat) (xs : List α) (x : α) : List α :=
  if xs.length < cap then xs ++ [x] else xs.drop (xs.length - cap + 1) ++ [x]

/-- The arguments of one `record_request` call (claim-relevant ones;
`method`, `user_id`, `ip_address` left at their defaults). -/
structure RequestObs where
  endpoint : String
  response_time : ℚ
  status_code : Int
  cache_hit : Bool
  database_queries : Nat
  database_time : ℚ
  deriving DecidableEq

/-- The `PerformanceMetric` row built by `record_request`. -/
def obsMetric (o : RequestObs) : PerfMetric :=
  ⟨o.endpoint, "GET", o.response_time, o.status_code, o.cache_hit,
    o.database_queries, o.database_time⟩

/-- The method `record_request`: append to the bounded deque,
update the endpoint aggregates incrementally, update the database totals,
and — only on an error status — store `errors / total_requests` (a
fraction, not a percentage) into `error_rates`. -/
def PerformanceMonitor.record_request (s : PerformanceMonitor) (o : RequestObs) :
    PerformanceMonitor :=
  let st := (alookup o.endpoint s.endpoint_stats).getD EndpointStats.dflt
  let st2 : EndpointStats :=
    { total_requests := st.total_requests + 1
      total_response_time := st.total_response_time + o.response_time
      min_response_time :=
        some (match st.min_response_time with
              | none => o.response_time
              | some m => qmin m o.response_time)
      max_response_time := qmax st.max_response_time o.response_time
      status_codes :=
        ainsert o.status_code ((alookup o.status_code st.status_codes).getD 0 + 1)
          st.status_codes
      cache_hits := st.cache_hits + (if o.cache_hit then 1 else 0)
      database_queries := st.database_queries + o.database_queries
      database_time := st.database_time + o.database_time
      errors := st.errors + (if o.status_code ≥ 400 then 1 else 0) }
  let db := s.database_performance
  let db2 : DbPerf :=
    { total_queries := db.total_queries + o.database_queries
      total_time := db.total_time + o.database_time
      slow_queries := db.slow_queries + (if o.database_time > SLOW_QUERY_THRESHOLD then 1 else 0) }
  let er2 :=
    if o.status_code ≥ 400 then
      ainsert o.endpoint ((st2.errors : ℚ) / (st2.total_requests : ℚ)) s.error_rates
    else s.error_rates
  { metrics := pushMax METRICS_MAXLEN s.metrics (obsMetric o)
    endpoint_stats := ainsert o.endpoint st2 s.endpoint_stats
    cache_stats := s.cache_stats
    error_rates := er2
    database_performance := db2 }

/-- The method `record_cache_hit`. -/
def PerformanceMonitor.record_cache_hit (s : PerformanceMonitor) (cache_type : String) :
    PerformanceMonitor :=
  { s with cache_stats :=
      ainsert cache_type ((alookup cache_type s.cache_stats).getD 0 + 1) s.cache_stats }

/-- Record a list of requests in order. -/
def recordAll (s : PerformanceMonitor) (l : List RequestObs) : PerformanceMonitor :=
  l.foldl PerformanceMonitor.record_request s

/-- Insertion into a `≤`-sorted rational list. -/
def insertSorted (x : ℚ) : List ℚ → List ℚ
  | [] => [x]
  | y :: ys => if x ≤ y then x :: y :: ys else y :: insertSorted x ys

/-- Python `list.sort()` on rationals (insertion sort — same sorted result). -/
def sortQ : List ℚ → List ℚ
  | [] => []
  | x :: xs => insertSorted x (sortQ xs)

/-- Python `int(n * q)` for the percentile index, with the percentile written as
the fraction `num / den`: truncation of the non-negative product is
`n * num / den` in natural division. -/
def pctIndex (n num den : Nat) : Nat := n * num / den

/-- The `response_times` percentile dictionary of a snapshot (built only
when the window is non-empty). -/
structure Percentiles where
  p50 : ℚ
  p90 : ℚ
  p95 : ℚ
  p99 : ℚ
  min : ℚ
  max : ℚ
  avg : ℚ
  deriving DecidableEq

/-- One `endpoint_metrics[endpoint]` record of a snapshot. -/
structure EndpointView where
  total_requests : Nat
  average_response_time : ℚ
  min_response_time : ℚ
  max_response_time : ℚ
  cache_hit_rate : ℚ
  error_rate : ℚ
  status_codes : List (Int × Nat)
  deriving DecidableEq

/-- The `database_performance` block of a snapshot. -/
structure DbView where
  total_queries : Nat
  total_time : ℚ
  average_time : ℚ
  slow_queries : Nat
  slow_query_rate : ℚ
  deriving DecidableEq

/-- The claim-relevant part of the dictionary returned by
`PerformanceMonitor.get_metrics`. -/
structure MetricsView where
  response_times : Option Percentiles
  endpoints : List (String × EndpointView)
  cache_hit_rates : List (String × ℚ)
  error_rates : List (String × ℚ)
  database_performance : DbView
  deriving DecidableEq

/-- The per-endpoint snapshot record derived from running stats. -/
def endpointView (st : EndpointStats) : EndpointView :=
  { total_requests := st.total_requests
    average_response_time := st.total_response_time / (st.total_requests : ℚ)
    min_response_time := st.min_response_time.getD 0
    max_response_time := st.max_response_time
    cache_hit_rate := (st.cache_hits : ℚ) / (st.total_requests : ℚ) * 100
    error_rate := (st.errors : ℚ) / (st.total_requests : ℚ) * 100
    status_codes := st.status_codes }

/-- The method `get_metrics`: sort the current window, index the
sorted list at `int(n * p)` for the percentiles (empty window: the
percentile dictionary stays empty), derive per-endpoint and cache-type
rates, and the database summary with division-by-zero guarded to `0`. -/
def PerformanceMonitor.get_metrics (s : PerformanceMonitor) : MetricsView :=
  let rts := sortQ (s.metrics.map (·.response_time))
  let n := rts.length
  let percentiles : Option Percentiles :=
    if n = 0 then none
    else some
      { p50 := rts.getD (pctIndex n 1 2) 0
        p90 := rts.getD (pctIndex n 9 10) 0
        p95 := rts.getD (pctIndex n 95 100) 0
        p99 := rts.getD (pctIndex n 99 100) 0
        min := rts.getD 0 0
        max := rts.getD (n - 1) 0
        avg := rts.sum / (n : ℚ) }
  let totalCache := (s.cache_stats.map (·.2)).sum
  let db := s.database_performance
  { response_times := percentiles
    endpoints :=
      (s.endpoint_stats.filter (fun p => p.2.total_requests > 0)).map
        (fun p => (p.1, endpointView p.2))
    cache_hit_rates :=
      if totalCache > 0 then
        s.cache_stats.map (fun p => (p.1, (p.2 : ℚ) / (totalCache : ℚ) * 100))
      else []
    error_rates := s.error_rates
    database_performance :=
      { total_queries := db.total_queries
        total_time := db.total_time
        average_time :=
          if db.total_queries > 0 then db.total_time / (db.total_queries : ℚ) else 0
        slow_queries := db.slow_queries
        slow_query_rate :=
          if db.total_queries > 0 then
            (db.slow_queries : ℚ) / (db.total_queries : ℚ) * 100
          else 0 } }

/-!
### Alert evaluator (`dashboard/monitoring_dashboard.py`, `_check_alerts`)
-/

/-- One alert.  `subject` abstracts the formatted message to the thing it
references (`p95`, an endpoint, a cache type, `memory`, `cpu`,
`slow_queries`); the timestamp is dropped. -/
structure Alert where
  type : String
  subject : String
  severity : String
  deriving DecidableEq

/-- The method `_check_alerts`, over the snapshot plus the two
system-probe readings it consults.  Note the error-rate section compares
the stored `error_rates` values — which `record_request` stores as
fractions in [0, 1] — against the literal `5.0`. -/
def check_alerts (pm : MetricsView) (memory_percent cpu_percent : ℚ) : List Alert :=
  let a1 : List Alert :=
    if ((pm.response_times.map (·.p95)).getD 0) > 1 then
      [⟨"warning", "p95", "medium"⟩]
    else []
  let a2 : List Alert :=
    pm.error_rates.filterMap
      (fun p => if p.2 > 5 then some ⟨"error", p.1, "high"⟩ else none)
  let a3 : List Alert :=
    pm.cache_hit_rates.filterMap
      (fun p => if p.2 < 50 then some ⟨"warning", p.1, "low"⟩ else none)
  let a4 : List Alert :=
    if memory_percent > 90 then [⟨"critical", "memory", "critical"⟩]
    else if memory_percent > 80 then [⟨"warning", "memory", "medium"⟩]
    else []
  let a5 : List Alert :=
    if cpu_percent > 90 then [⟨"critical", "cpu", "critical"⟩]
    else if cpu_percent > 80 then [⟨"warning", "cpu", "medium"⟩]
    else []
  let a6 : List Alert :=
    if pm.database_performance.slow_query_rate > 10 then
      [⟨"warning", "slow_queries", "medium"⟩]
    else []
  a1 ++ a2 ++ a3 ++ a4 ++ a5 ++ a6

/-!
### Search cache key (`services/search_service.py`, `_create_cache_key`)

`ProductSearchRequest` (`schemas/models.py`) is embedded with its fields;
the three `Decimal` filter fields are modelled at integer precision (their
`str()` rendering is the plain decimal numeral either way), `tags` keeps
its list order and `attributes` is the insertion-ordered dict with string
values, since `str()` of a Python list/dict renders entries in stored
order.
-/

/-- The filter-request schema `ProductSearchRequest`. -/
structure ProductSearchRequest where
  query : String
  category_id : Option Int
  brand : Option String
  min_price : Option Int
  max_price : Option Int
  min_rating : Option Int
  in_stock_only : Bool
  featured_only : Bool
  tags : Option (List String)
  attributes : Option (List (String × String))
  sort_by : String
  sort_order : String
  page : Int
  size : Int
  deriving DecidableEq

/-- A single-quote character, as `repr` uses around strings. -/
def pyQuote : String := "\x27"

/-- Python `repr` of a string (no escaping inside — the inputs used here
contain no quotes or specials). -/
def pyReprStr (s : String) : String := pyQuote ++ s ++ pyQuote

/-- Python `str` of a list of strings: `[\x27a\x27, \x27b\x27]`. -/
def pyStrOfList (xs : List String) : String :=
  "[" ++ String.intercalate ", " (xs.map pyReprStr) ++ "]"

/-- Python `str` of a dict with string keys and values, rendered in
insertion order: `\x7b\x27k\x27: \x27v\x27\x7d`. -/
def pyStrOfDict (xs : List (String × String)) : String :=
  "\x7b" ++ String.intercalate ", " (xs.map (fun p => pyReprStr p.1 ++ ": " ++ pyReprStr p.2)) ++ "\x7d"

/-- Python `str(x or "")` for an optional integer field: `None` and `0` are
falsy and render as the empty string. -/
def pyOrEmptyInt (x : Option Int) : String :=
  match x with
  | none => ""
  | some n => if n = 0 then "" else toString n

/-- Python `str(x or "")` for an optional string field (an empty string is falsy
but renders identically). -/
def pyOrEmptyStr (x : Option String) : String := x.getD ""

/-- Python `str` of a bool. -/
def pyStrBool (b : Bool) : String := if b then "True" else "False"

/-- The method `_create_cache_key`: the fixed field order, each field
stringified, joined with `:`. -/
def create_cache_key (r : ProductSearchRequest) : String :=
  String.intercalate ":"
    [ "search"
    , r.query
    , pyOrEmptyInt r.category_id
    , pyOrEmptyStr r.brand
    , pyOrEmptyInt r.min_price
    , pyOrEmptyInt r.max_price
    , pyOrEmptyInt r.min_rating
    , pyStrBool r.in_stock_only
    , pyStrBool r.featured_only
    , pyStrOfList (r.tags.getD [])
    , pyStrOfDict (r.attributes.getD [])
    , r.sort_by
    , r.sort_order
    , toString r.page
    , toString r.size ]

/-!
### Helper lemmas
-/

theorem alookup_ainsert [DecidableEq κ] (k : κ) (v : α) (l : List (κ × α)) :
    alookup k (ainsert k v l) = some v := by
  induction l with
  | nil => simp [ainsert, aerase, alookup]
  | cons p rest ih =>
      rcases p with ⟨k2, v2⟩
      by_cases h : k2 = k
      · subst h
        have e : ainsert k2 v ((k2, v2) :: rest) = ainsert k2 v rest := by
          simp [ainsert, aerase, List.filter_cons]
        rw [e]
        exact ih
      · have e : ainsert k v ((k2, v2) :: rest) = (k2, v2) :: ainsert k v rest := by
          simp [ainsert, aerase, List.filter_cons, h]
        have e2 : alookup k ((k2, v2) :: ainsert k v rest) = alookup k (ainsert k v rest) := by
          simp [alookup, h]
        rw [e, e2]
        exact ih

theorem imin_le_left (a b : Int) : imin a b ≤ a := by
  unfold imin; split <;> omega

theorem imin_pos {a b : Int} (ha : 0 < a) (hb : 0 < b) : 0 < imin a b := by
  unfold imin; split <;> omega

/-- The local tier after `set`: every branch of `set` leaves the locally
written entry in place. -/
theorem set_local_cache (s : CacheService) (now : Int) (key : String)
    (v : PyVal) (ttl : Option Int) :
    ((s.set now key v ttl).2).local_cache
      = ainsert key ⟨v, now + imin (effTtl ttl) CACHE_SHORT_TTL⟩ s.local_cache := by
  unfold CacheService.set
  cases hr : s.redis_client with
  | none => simp [hr]
  | some r =>
      by_cases hf : r.failing
      · simp [hr, hf]
      · by_cases ht : effTtl ttl ≤ 0 <;> simp [hr, hf, ht]

/-- A live local entry is served directly by `get`. -/
theorem get_local_hit (s : CacheService) (now : Int) (key : String) (e : LocalEntry)
    (hl : alookup key s.local_cache = some e) (he : e.expires_at > now) :
    s.get now key =
      (e.data, { s with cache_stats := { s.cache_stats with hits := s.cache_stats.hits + 1 } }) := by
  unfold CacheService.get
  rw [hl]
  simp [he]

/-!
### Claim C1 — cache-key determinism of `_create_cache_key`

Two concrete search requests that agree on every filter value — the
`attributes` dicts hold exactly the same key/value pairs, merely inserted
in a different order — receive different cache keys, because the key
embeds `str(request.attributes or ...)`, whose rendering follows dict
insertion order.
-/

/-- First request: attributes inserted as color, then size. -/
def reqA : ProductSearchRequest :=
  ⟨"phone", none, none, none, none, none, false, false, none,
    some [("color", "red"), ("size", "M")], "relevance", "desc", 1, 20⟩

/-- Second request: the same attribute key/value pairs, inserted as size,
then color. -/
def reqB : ProductSearchRequest :=
  { reqA with attributes := some [("size", "M"), ("color", "red")] }

/-- C1: the cache key is NOT determined by the filter values alone.
`reqA` and `reqB` agree on every field — in particular their attribute
dicts map every key to the same value — yet `_create_cache_key` gives
them different keys.  This refutes the spec invariant that identically
valued requests (any construction order) share a cache key. -/
theorem cache_key_depends_on_dict_order :
    (∀ k, alookup k (reqA.attributes.getD []) = alookup k (reqB.attributes.getD [])) ∧
    reqA.query = reqB.query ∧ reqA.category_id = reqB.category_id ∧
    reqA.brand = reqB.brand ∧ reqA.min_price = reqB.min_price ∧
    reqA.max_price = reqB.max_price ∧ reqA.min_rating = reqB.min_rating ∧
    reqA.in_stock_only = reqB.in_stock_only ∧ reqA.featured_only = reqB.featured_only ∧
    reqA.tags = reqB.tags ∧ reqA.sort_by = reqB.sort_by ∧
    reqA.sort_order = reqB.sort_order ∧ reqA.page = reqB.page ∧ reqA.size = reqB.size ∧
    create_cache_key reqA ≠ create_cache_key reqB := by
  refine ⟨?_, rfl, rfl, rfl, rfl, rfl, rfl, rfl, rfl, rfl, rfl, rfl, rfl, rfl, by decide⟩
  intro k
  show alookup k [("color", "red"), ("size", "M")] =
    alookup k [("size", "M"), ("color", "red")]
  simp only [alookup]
  by_cases h1 : ("color" : String) = k
  · by_cases h2 : ("size" : String) = k
    · exact absurd (h1.trans h2.symm) (by decide)
    · simp [h1, h2]
  · simp [h1]

/-!
### Claim C3 — error-rate alerts

`record_request` stores per-endpoint error rates into `error_rates` as
fractions in `[0, 1]`, while `_check_alerts` compares them against the
literal `5.0` (intending "5 percent").  A fraction never exceeds 1, so
the high-severity error alert can never fire.
-/

/-- One request to endpoint `api` with status 500: its error rate is
100 percent. -/
def monitorOneError : PerformanceMonitor :=
  PerformanceMonitor.init.record_request ⟨"api", 1 / 10, 500, false, 0, 0⟩

/-- C3: with a 100 percent error rate on endpoint `api` — far above the
5 percent threshold, as the snapshot's own per-endpoint `error_rate`
percentage field shows — the evaluator emits no alert at all: the stored
`error_rates` value is the fraction `1`, and `1 > 5` is false. -/
theorem error_rate_alert_never_fires :
    monitorOneError.get_metrics.error_rates = [("api", 1)] ∧
    (monitorOneError.get_metrics.endpoints.map fun p => (p.1, p.2.error_rate)) =
      [("api", 100)] ∧
    (100 : ℚ) > 5 ∧
    check_alerts monitorOneError.get_metrics 0 0 = [] := by
  norm_num [monitorOneError, PerformanceMonitor.record_request, PerformanceMonitor.init,
    PerformanceMonitor.get_metrics, EndpointStats.dflt, obsMetric, alookup, ainsert, aerase,
    sortQ, insertSorted, pctIndex, qmin, qmax, endpointView, check_alerts]

/-!
### Claim C8 — percentile correctness on the synthetic window
-/

/-- The synthetic window: ten requests with response times
`0.1, 0.2, ..., 1.0` (recorded in increasing order). -/
def windowTen : List RequestObs :=
  [ ⟨"api", 1/10, 200, false, 0, 0⟩, ⟨"api", 2/10, 200, false, 0, 0⟩
  , ⟨"api", 3/10, 200, false, 0, 0⟩, ⟨"api", 4/10, 200, false, 0, 0⟩
  , ⟨"api", 5/10, 200, false, 0, 0⟩, ⟨"api", 6/10, 200, false, 0, 0⟩
  , ⟨"api", 7/10, 200, false, 0, 0⟩, ⟨"api", 8/10, 200, false, 0, 0⟩
  , ⟨"api", 9/10, 200, false, 0, 0⟩, ⟨"api", 1, 200, false, 0, 0⟩ ]

/-- C8: on the window `[0.1, ..., 1.0]` the snapshot's percentiles are
exactly the order statistics of the fully sorted window: `p50` is the
sorted element at index `int(10 * 0.5) = 5` (value `0.6`), `p90`/`p95`/
`p99` the elements at indices `9`/`9`/`9` (value `1`), `min`/`max` the
first/last sorted elements, and `avg` the exact mean `0.55`. -/
theorem percentiles_exact_on_synthetic_window :
    (recordAll PerformanceMonitor.init windowTen).get_metrics.response_times =
      some ⟨3 / 5, 1, 1, 1, 1 / 10, 1, 11 / 20⟩ ∧
    sortQ (windowTen.map (fun o => o.response_time)) =
      [1/10, 2/10, 3/10, 4/10, 5/10, 6/10, 7/10, 8/10, 9/10, 1] ∧
    pctIndex 10 1 2 = 5 ∧ pctIndex 10 9 10 = 9 ∧
    pctIndex 10 95 100 = 9 ∧ pctIndex 10 99 100 = 9 ∧
    ((3 : ℚ) / 5 =
      (sortQ (windowTen.map (fun o => o.response_time))).getD (pctIndex 10 1 2) 0) ∧
    ((11 : ℚ) / 20 = (windowTen.map (fun o => o.response_time)).sum / 10) := by
  norm_num [windowTen, recordAll, PerformanceMonitor.record_request, PerformanceMonitor.init,
    PerformanceMonitor.get_metrics, EndpointStats.dflt, obsMetric, alookup, ainsert, aerase,
    sortQ, insertSorted, pctIndex, qmin, qmax, endpointView]

/-!
### Claim C9 — snapshot of an empty aggregator
-/

/-- C9 counterexample: on an aggregator holding zero observations the
percentile dictionary is empty (`response_times = none`) — the snapshot
does NOT report the percentiles as `0`. -/
theorem empty_snapshot_has_no_percentiles :
    PerformanceMonitor.init.get_metrics.response_times = none ∧
    PerformanceMonitor.init.get_metrics.response_times ≠ some ⟨0, 0, 0, 0, 0, 0, 0⟩ := by
  refine ⟨by norm_num [PerformanceMonitor.get_metrics, PerformanceMonitor.init, sortQ], ?_⟩
  intro h
  simp [PerformanceMonitor.get_metrics, PerformanceMonitor.init, sortQ] at h

/-- C9 (amended): a snapshot of the empty aggregator succeeds and returns
database average time and slow-query rate as `0`, with the percentile,
per-endpoint and cache-hit-rate maps empty rather than zero-filled. -/
theorem empty_snapshot_safe :
    PerformanceMonitor.init.get_metrics = ⟨none, [], [], [], ⟨0, 0, 0, 0, 0⟩⟩ := by
  norm_num [PerformanceMonitor.get_metrics, PerformanceMonitor.init, sortQ]

/-!
### Claim C2 — local-tier expiry vs shared-tier expiry

After `set` the local expiry `now + min(ttl, CACHE_SHORT_TTL)` is indeed
at most the shared expiry `now + ttl`.  But a `get` that repopulates from
the shared tier writes the local entry with the fixed
`now + CACHE_SHORT_TTL`, ignoring the remaining shared TTL, so the
invariant fails whenever less than `CACHE_SHORT_TTL` remains on the
shared copy.
-/

/-- A service whose shared tier holds `k` with only 10 seconds of TTL
left (local tier empty, backend reachable). -/
def repopSvc : CacheService :=
  ⟨[], some ⟨[(fullKey "k", ⟨.pystr "v", 10⟩)], false⟩, CacheStats.init⟩

/-- C2 counterexample: `get` at time 0 finds `k` in the shared tier with
expiry 10, yet repopulates the local tier with expiry `0 + 300`: the
local expiry exceeds the shared expiry, and the local TTL is `300`, not
`min(remaining_ttl, local_max_ttl) = 10`. -/
theorem repopulated_local_ttl_exceeds_shared :
    alookup "k" ((repopSvc.get 0 "k").2).local_cache = some ⟨.pystr "v", 300⟩ ∧
    (∃ r, ((repopSvc.get 0 "k").2).redis_client = some r ∧
      alookup (fullKey "k") r.entries = some ⟨.pystr "v", 10⟩) ∧
    ¬ ((300 : Int) ≤ 10) ∧ (300 : Int) ≠ imin 10 CACHE_SHORT_TTL := by
  refine ⟨by decide, ⟨⟨[(fullKey "k", ⟨.pystr "v", 10⟩)], false⟩, by decide, by decide⟩,
    by decide, by decide⟩

/-- C2 (amended): after every `set` with positive effective TTL the local
expiry is at most the shared expiry; but on a shared-tier repopulation
`get` always writes the local entry with the fixed `CACHE_SHORT_TTL`
regardless of the remaining shared TTL. -/
theorem ttl_cap_on_set_but_fixed_on_repopulate :
    (∀ (s : CacheService) (now : Int) (key : String) (v : PyVal) (ttl : Option Int)
        (r : RedisTier),
      s.redis_client = some r → r.failing = false → 0 < effTtl ttl →
      alookup key ((s.set now key v ttl).2).local_cache
          = some ⟨v, now + imin (effTtl ttl) CACHE_SHORT_TTL⟩ ∧
      (∃ r2, ((s.set now key v ttl).2).redis_client = some r2 ∧
        alookup (fullKey key) r2.entries = some ⟨v, now + effTtl ttl⟩) ∧
      now + imin (effTtl ttl) CACHE_SHORT_TTL ≤ now + effTtl ttl) ∧
    (∀ (s : CacheService) (now : Int) (key : String) (r : RedisTier) (re : RedisEntry),
      alookup key s.local_cache = none → s.redis_client = some r → r.failing = false →
      alookup (fullKey key) r.entries = some re → re.expires_at > now →
      (s.get now key).1 = re.data ∧
      alookup key ((s.get now key).2).local_cache
        = some ⟨re.data, now + CACHE_SHORT_TTL⟩) := by
  constructor
  · intro s now key v ttl r hr hf ht
    have ht2 : ¬ (effTtl ttl ≤ 0) := by omega
    refine ⟨?_, ?_, ?_⟩
    · rw [set_local_cache]
      exact alookup_ainsert key _ s.local_cache
    · refine ⟨{ r with entries := ainsert (fullKey key) ⟨v, now + effTtl ttl⟩ r.entries }, ?_, ?_⟩
      · unfold CacheService.set
        simp [hr, hf, ht2]
      · exact alookup_ainsert (fullKey key) _ r.entries
    · have := imin_le_left (effTtl ttl) CACHE_SHORT_TTL
      omega
  · intro s now key r re hl hr hf hre he
    unfold CacheService.get CacheService.getRedisPhase
    rw [hl, hr]
    simp only [hf, Bool.false_eq_true, if_false, ite_false]
    rw [hre]
    simp only [he, if_true, ite_true]
    exact ⟨trivial, alookup_ainsert key _ s.local_cache⟩

/-- C2 witness: the amended theorem applied at a concrete `set`
(`ttl = 60`) and at the concrete repopulating `get` of `repopSvc`. -/
theorem ttl_cap_on_set_but_fixed_on_repopulate_witness :
    alookup "k" (((CacheService.fresh ⟨[], false⟩).set 0 "k" (.pystr "v") (some 60)).2).local_cache
        = some ⟨.pystr "v", 0 + imin (effTtl (some 60)) CACHE_SHORT_TTL⟩ ∧
    (repopSvc.get 0 "k").1 = PyVal.pystr "v" := by
  refine ⟨(ttl_cap_on_set_but_fixed_on_repopulate.1 (CacheService.fresh ⟨[], false⟩) 0 "k"
      (.pystr "v") (some 60) ⟨[], false⟩ rfl rfl (by decide)).1,
    (ttl_cap_on_set_but_fixed_on_repopulate.2 repopSvc 0 "k"
      ⟨[(fullKey "k", ⟨.pystr "v", 10⟩)], false⟩ ⟨.pystr "v", 10⟩
      rfl rfl rfl (by decide) (by decide)).1⟩

/-!
### Claim C5 — `set` tolerates a failing shared tier
-/

/-- C5: with the shared tier failing every operation, `set` still stores
the entry locally, reports the failure by returning `False` (after
logging — the exception is swallowed, never raised: `set` is a total
function here) and counts an error; the immediate `get` is served from
the local tier: it returns `v` and records a local hit. -/
theorem set_survives_shared_tier_failure (s : CacheService) (now : Int) (key : String)
    (v : PyVal) (ttl : Option Int) (r : RedisTier)
    (hr : s.redis_client = some r) (hf : r.failing = true) (ht : 0 < effTtl ttl) :
    (s.set now key v ttl).1 = false ∧
    ((s.set now key v ttl).2).cache_stats.errors = s.cache_stats.errors + 1 ∧
    alookup key ((s.set now key v ttl).2).local_cache
      = some ⟨v, now + imin (effTtl ttl) CACHE_SHORT_TTL⟩ ∧
    (((s.set now key v ttl).2).get now key).1 = v ∧
    (((s.set now key v ttl).2).get now key).2.cache_stats.hits
      = ((s.set now key v ttl).2).cache_stats.hits + 1 := by
  have hl : alookup key ((s.set now key v ttl).2).local_cache
      = some ⟨v, now + imin (effTtl ttl) CACHE_SHORT_TTL⟩ := by
    rw [set_local_cache]
    exact alookup_ainsert key _ s.local_cache
  have he : (⟨v, now + imin (effTtl ttl) CACHE_SHORT_TTL⟩ : LocalEntry).expires_at > now := by
    have := imin_pos ht (show (0 : Int) < CACHE_SHORT_TTL by decide)
    simp only [LocalEntry.expires_at]
    omega
  have hget := get_local_hit ((s.set now key v ttl).2) now key _ hl he
  refine ⟨?_, ?_, hl, ?_, ?_⟩
  · unfold CacheService.set
    simp [hr, hf]
  · unfold CacheService.set
    simp [hr, hf]
  · rw [hget]
  · rw [hget]

/-- C5 witness: a concrete failing-backend `set` followed by `get`. -/
theorem set_survives_shared_tier_failure_witness :
    ((⟨[], some ⟨[], true⟩, CacheStats.init⟩ : CacheService).set 0 "k" (.pystr "v")
        (some 60)).1 = false ∧
    ((((⟨[], some ⟨[], true⟩, CacheStats.init⟩ : CacheService).set 0 "k" (.pystr "v")
        (some 60)).2).get 0 "k").1 = PyVal.pystr "v" := by
  have h := set_survives_shared_tier_failure ⟨[], some ⟨[], true⟩, CacheStats.init⟩ 0 "k"
    (.pystr "v") (some 60) ⟨[], true⟩ rfl rfl (by decide)
  exact ⟨h.1, h.2.2.2.1⟩

/-!
### Claim C10 — a stored `None` is indistinguishable from a miss
-/

/-- C10: after `set(k, None, ttl)`, `get(k)` returns `None` — the absent
result — and therefore `get_or_set(k, producer, ttl2)` invokes the
producer (its result is the producer's value) and stores the produced
value over the `None`. -/
theorem stored_none_reads_as_absent (s : CacheService) (now : Int) (key : String)
    (ttl ttl2 : Option Int) (fv : PyVal) (ht : 0 < effTtl ttl) :
    (((s.set now key .pynone ttl).2).get now key).1 = PyVal.pynone ∧
    (((s.set now key .pynone ttl).2).get_or_set now key fv ttl2).1 = fv ∧
    alookup key ((((s.set now key .pynone ttl).2).get_or_set now key fv ttl2).2).local_cache
      = some ⟨fv, now + imin (effTtl ttl2) CACHE_SHORT_TTL⟩ := by
  have hl : alookup key ((s.set now key .pynone ttl).2).local_cache
      = some ⟨.pynone, now + imin (effTtl ttl) CACHE_SHORT_TTL⟩ := by
    rw [set_local_cache]
    exact alookup_ainsert key _ _
  have he : (⟨PyVal.pynone, now + imin (effTtl ttl) CACHE_SHORT_TTL⟩ : LocalEntry).expires_at
      > now := by
    have := imin_pos ht (show (0 : Int) < CACHE_SHORT_TTL by decide)
    simp only [LocalEntry.expires_at]
    omega
  have hget := get_local_hit ((s.set now key .pynone ttl).2) now key _ hl he
  refine ⟨by rw [hget], ?_, ?_⟩
  · unfold CacheService.get_or_set
    rw [hget]
    simp
  · unfold CacheService.get_or_set
    rw [hget]
    simp only [ne_eq, not_true_eq_false, if_false, ite_false]
    rw [set_local_cache]
    exact alookup_ainsert key _ _

/-- C10 witness: concrete store of `None` followed by `get` and
`get_or_set`. -/
theorem stored_none_reads_as_absent_witness :
    ((((CacheService.fresh ⟨[], false⟩).set 0 "k" .pynone (some 100)).2).get 0 "k").1
        = PyVal.pynone ∧
    ((((CacheService.fresh ⟨[], false⟩).set 0 "k" .pynone (some 100)).2).get_or_set 0 "k"
        (.pyint 7) (some 100)).1 = PyVal.pyint 7 := by
  have h := stored_none_reads_as_absent (CacheService.fresh ⟨[], false⟩) 0 "k"
    (some 100) (some 100) (.pyint 7) (by decide)
  exact ⟨h.1, h.2.1⟩

/-!
### Claim C6 — `delete_pattern` and the local tier

`delete_pattern` only ever talks to the shared tier: it runs `KEYS` on
the prefixed pattern and deletes the returned keys.  The local tier is
never touched — not even an entry whose key equals the pattern string.
-/

/-- The end-to-end state: `set("product:1", "v", ttl=3600)` on a fresh
service with a reachable, empty shared tier. -/
def productSvc : CacheService :=
  ((CacheService.fresh ⟨[], false⟩).set 0 "product:1" (.pystr "v") (some 3600)).2

/-- C6 counterexample: `delete_pattern("product:*")` removes the shared
copy of `product:1` (count 1, shared tier left empty) but leaves the
local-tier entry fully in place, contradicting the claim that the entry
is removed from both tiers. -/
theorem delete_pattern_leaves_local_tier :
    (productSvc.delete_pattern 0 "product:*").1 = 1 ∧
    alookup "product:1" ((productSvc.delete_pattern 0 "product:*").2).local_cache
      = some ⟨.pystr "v", 300⟩ ∧
    ((productSvc.delete_pattern 0 "product:*").2).redis_client = some ⟨[], false⟩ := by
  refine ⟨by decide, by decide, by decide⟩

/-- C6 (amended): with a reachable shared tier, `delete_pattern` leaves
the local tier untouched, removes exactly the live shared-tier keys
matching the glob, returns their count and adds it to the `deletes`
counter. -/
theorem delete_pattern_shared_only (s : CacheService) (now : Int) (pattern : String)
    (r : RedisTier) (hr : s.redis_client = some r) (hf : r.failing = false) :
    ((s.delete_pattern now pattern).2).local_cache = s.local_cache ∧
    (s.delete_pattern now pattern).1
      = (r.entries.filter (redisKeyMatches now (fullKey pattern))).length ∧
    (∃ r2, ((s.delete_pattern now pattern).2).redis_client = some r2 ∧
      r2.entries = r.entries.filter (fun p => !(redisKeyMatches now (fullKey pattern) p)) ∧
      r2.failing = false) ∧
    ((s.delete_pattern now pattern).2).cache_stats.deletes
      = s.cache_stats.deletes + (s.delete_pattern now pattern).1 := by
  unfold CacheService.delete_pattern
  rw [hr]
  simp only [hf, Bool.false_eq_true, if_false, ite_false]
  by_cases hm : (r.entries.filter (redisKeyMatches now (fullKey pattern))).length > 0
  · simp only [hm, if_true, ite_true]
    refine ⟨by trivial, by trivial, ⟨_, by trivial, by trivial, by trivial⟩, by trivial⟩
  · simp only [hm, if_false, ite_false]
    have hnil : r.entries.filter (redisKeyMatches now (fullKey pattern)) = [] := by
      cases h : r.entries.filter (redisKeyMatches now (fullKey pattern)) with
      | nil => rfl
      | cons a l => rw [h] at hm; simp at hm
    have hall : ∀ p ∈ r.entries, redisKeyMatches now (fullKey pattern) p = false := by
      intro p hp
      by_contra hfalse
      have : p ∈ r.entries.filter (redisKeyMatches now (fullKey pattern)) := by
        rw [List.mem_filter]
        exact ⟨hp, by revert hfalse; cases redisKeyMatches now (fullKey pattern) p <;> simp⟩
      rw [hnil] at this
      exact absurd this (List.not_mem_nil p)
    have hself : r.entries.filter (fun p => !(redisKeyMatches now (fullKey pattern) p))
        = r.entries := by
      rw [List.filter_eq_self]
      intro a ha
      rw [hall a ha]
      rfl
    refine ⟨by trivial, ?_, ⟨r, ?_, ?_, hf⟩, ?_⟩
    · rw [hnil]
      rfl
    · exact hr
    · exact hself.symm
    · omega

/-- C6 amended-theorem witness: the concrete end-to-end state. -/
theorem delete_pattern_shared_only_witness :
    ((productSvc.delete_pattern 0 "product:*").2).local_cache = productSvc.local_cache ∧
    (productSvc.delete_pattern 0 "product:*").1
      = ((productSvc.redis_client.getD ⟨[], false⟩).entries.filter
          (redisKeyMatches 0 (fullKey "product:*"))).length := by
  have h := delete_pattern_shared_only productSvc 0 "product:*"
    ⟨[(fullKey "product:1", ⟨.pystr "v", 3600⟩)], false⟩ (by decide) rfl
  exact ⟨h.1, by rw [h.2.1]; decide⟩

/-!
### Claim C4 — hit/miss accounting

`get` classifies each call as a hit (live entry found, local or shared),
a miss (nothing found, no fault) or a fault (the shared tier raised).
Hits and misses are counted in `stats.hits` / `stats.misses`; a fault is
counted in `stats.errors` only — it returns `None` like a miss but is
*not* added to `stats.misses`, refuting `misses == N - M`.
-/

/-- A service whose shared tier raises on every call (empty local tier). -/
def failingSvc : CacheService := ⟨[], some ⟨[], true⟩, CacheStats.init⟩

/-- C4 counterexample: one `get` (so `N = 1`) that returns no value
(so `M = 0`) during which the shared tier raises: afterwards
`stats.misses = 0`, not `N - M = 1`; the call went to `stats.errors`. -/
theorem faulted_get_is_not_a_miss :
    (failingSvc.get 0 "x").1 = PyVal.pynone ∧
    ((failingSvc.get 0 "x").2).cache_stats.hits = 0 ∧
    ((failingSvc.get 0 "x").2).cache_stats.misses = 0 ∧
    ((failingSvc.get 0 "x").2).cache_stats.errors = 1 := by
  refine ⟨by decide, by decide, by decide, by decide⟩

/-- One public cache operation. -/
inductive CacheOp where
  | opGet (key : String)
  | opSet (key : String) (value : PyVal) (ttl : Option Int)
  | opDel (key : String)
  deriving DecidableEq

/-- Run one timed operation against the service. -/
def stepOp (s : CacheService) (a : Int × CacheOp) : CacheService :=
  match a.2 with
  | .opGet k => (s.get a.1 k).2
  | .opSet k v t => (s.set a.1 k v t).2
  | .opDel k => (s.delete k).2

/-- Run a sequence of timed operations. -/
def runOps (s : CacheService) (l : List (Int × CacheOp)) : CacheService :=
  l.foldl stepOp s

/-- Classification of one `get`. -/
inductive GetOutcome where
  | hit
  | miss
  | fault
  deriving DecidableEq

/-- Outcome of the shared-tier phase of a `get`. -/
def redisOutcome (s : CacheService) (now : Int) (key : String) : GetOutcome :=
  match s.redis_client with
  | some r =>
    if r.failing then .fault
    else
      match alookup (fullKey key) r.entries with
      | some re => if re.expires_at > now then .hit else .miss
      | none => .miss
  | none => .miss

/-- Outcome of a `get`, mirroring its branch structure. -/
def getOutcome (s : CacheService) (now : Int) (key : String) : GetOutcome :=
  match alookup key s.local_cache with
  | some e => if e.expires_at > now then .hit else redisOutcome s now key
  | none => redisOutcome s now key

/-- Per-trace counters: the number of gets classified as hit, miss, and
fault along the run. -/
def opCounts : CacheService → List (Int × CacheOp) → Nat × Nat × Nat
  | _, [] => (0, 0, 0)
  | s, a :: rest =>
    let c := opCounts (stepOp s a) rest
    match a.2 with
    | .opGet k =>
      match getOutcome s a.1 k with
      | .hit => (c.1 + 1, c.2.1, c.2.2)
      | .miss => (c.1, c.2.1 + 1, c.2.2)
      | .fault => (c.1, c.2.1, c.2.2 + 1)
    | _ => c

/-- The number of `get` operations in a sequence. -/
def numGets (l : List (Int × CacheOp)) : Nat :=
  l.countP (fun a => match a.2 with | .opGet _ => true | _ => false)

theorem getRedisPhase_stats (s : CacheService) (now : Int) (key : String) :
    ((s.getRedisPhase now key).2).cache_stats.hits
        = s.cache_stats.hits + (if redisOutcome s now key = .hit then 1 else 0) ∧
    ((s.getRedisPhase now key).2).cache_stats.misses
        = s.cache_stats.misses + (if redisOutcome s now key = .miss then 1 else 0) := by
  unfold CacheService.getRedisPhase redisOutcome
  cases hr : s.redis_client with
  | none => simp
  | some r =>
      by_cases hf : r.failing
      · simp [hf]
      · cases he : alookup (fullKey key) r.entries with
        | none => simp [hf, he]
        | some re => by_cases hx : re.expires_at > now <;> simp [hf, he, hx]

theorem get_stats_delta (s : CacheService) (now : Int) (key : String) :
    ((s.get now key).2).cache_stats.hits
        = s.cache_stats.hits + (if getOutcome s now key = .hit then 1 else 0) ∧
    ((s.get now key).2).cache_stats.misses
        = s.cache_stats.misses + (if getOutcome s now key = .miss then 1 else 0) := by
  unfold CacheService.get getOutcome
  cases hl : alookup key s.local_cache with
  | none => exact getRedisPhase_stats s now key
  | some e =>
      by_cases he : e.expires_at > now
      · simp [he]
      · have h2 := getRedisPhase_stats { s with local_cache := aerase key s.local_cache } now key
        have hro : redisOutcome { s with local_cache := aerase key s.local_cache } now key
            = redisOutcome s now key := rfl
        rw [hro] at h2
        simpa [he] using h2

theorem set_preserves_hits_misses (s : CacheService) (now : Int) (key : String)
    (v : PyVal) (ttl : Option Int) :
    ((s.set now key v ttl).2).cache_stats.hits = s.cache_stats.hits ∧
    ((s.set now key v ttl).2).cache_stats.misses = s.cache_stats.misses := by
  unfold CacheService.set
  cases hr : s.redis_client with
  | none => simp
  | some r =>
      by_cases hf : r.failing
      · simp [hf]
      · by_cases ht : effTtl ttl ≤ 0 <;> simp [hf, ht]

theorem delete_preserves_hits_misses (s : CacheService) (key : String) :
    ((s.delete key).2).cache_stats.hits = s.cache_stats.hits ∧
    ((s.delete key).2).cache_stats.misses = s.cache_stats.misses := by
  unfold CacheService.delete
  cases hr : s.redis_client with
  | none => simp
  | some r =>
      by_cases hf : r.failing
      · simp [hf]
      · simp [hf]

/-- C4 (amended): over every operation sequence from every start state,
`stats.hits` grows by exactly the number of gets that found a live entry
and `stats.misses` by exactly the number of gets that found nothing
without a shared-tier fault; faulted gets — which also return the absent
result — are counted in neither, so hit + miss + fault equals the number
of gets while `misses = N - M` fails in the presence of faults.
Interleaved `set`/`delete` operations change neither counter. -/
theorem hit_miss_accounting (s : CacheService) (l : List (Int × CacheOp)) :
    ((runOps s l).cache_stats.hits = s.cache_stats.hits + (opCounts s l).1 ∧
     (runOps s l).cache_stats.misses = s.cache_stats.misses + (opCounts s l).2.1) ∧
    (opCounts s l).1 + (opCounts s l).2.1 + (opCounts s l).2.2 = numGets l := by
  induction l generalizing s with
  | nil => simp [runOps, opCounts, numGets]
  | cons a rest ih =>
      have hrun : runOps s (a :: rest) = runOps (stepOp s a) rest := rfl
      obtain ⟨⟨ih1, ih2⟩, ih3⟩ := ih (stepOp s a)
      rcases a with ⟨now, op⟩
      cases op with
      | opGet k =>
          have hstep : stepOp s (now, .opGet k) = (s.get now k).2 := rfl
          have hg := get_stats_delta s now k
          have hnum : numGets ((now, CacheOp.opGet k) :: rest) = numGets rest + 1 := by
            simp [numGets, List.countP_cons]
          cases ho : getOutcome s now k with
          | hit =>
              have hc : opCounts s ((now, CacheOp.opGet k) :: rest)
                  = ((opCounts (stepOp s (now, .opGet k)) rest).1 + 1,
                     (opCounts (stepOp s (now, .opGet k)) rest).2.1,
                     (opCounts (stepOp s (now, .opGet k)) rest).2.2) := by
                simp [opCounts, ho]
              rw [hrun, hc]
              constructor
              · constructor
                · rw [ih1, hstep, hg.1, ho]
                  simp
                  omega
                · rw [ih2, hstep, hg.2, ho]
                  simp
              · simp only at ih3 ⊢
                rw [hnum]
                omega
          | miss =>
              have hc : opCounts s ((now, CacheOp.opGet k) :: rest)
                  = ((opCounts (stepOp s (now, .opGet k)) rest).1,
                     (opCounts (stepOp s (now, .opGet k)) rest).2.1 + 1,
                     (opCounts (stepOp s (now, .opGet k)) rest).2.2) := by
                simp [opCounts, ho]
              rw [hrun, hc]
              constructor
              · constructor
                · rw [ih1, hstep, hg.1, ho]
                  simp
                · rw [ih2, hstep, hg.2, ho]
                  simp
                  omega
              · simp only at ih3 ⊢
                rw [hnum]
                omega
          | fault =>
              have hc : opCounts s ((now, CacheOp.opGet k) :: rest)
                  = ((opCounts (stepOp s (now, .opGet k)) rest).1,
                     (opCounts (stepOp s (now, .opGet k)) rest).2.1,
                     (opCounts (stepOp s (now, .opGet k)) rest).2.2 + 1) := by
                simp [opCounts, ho]
              rw [hrun, hc]
              constructor
              · constructor
                · rw [ih1, hstep, hg.1, ho]
                  simp
                · rw [ih2, hstep, hg.2, ho]
                  simp
              · simp only at ih3 ⊢
                rw [hnum]
                omega
      | opSet k v t =>
          have hstep : stepOp s (now, .opSet k v t) = (s.set now k v t).2 := rfl
          have hc : opCounts s ((now, CacheOp.opSet k v t) :: rest)
              = opCounts (stepOp s (now, .opSet k v t)) rest := by
            simp [opCounts]
          have hnum : numGets ((now, CacheOp.opSet k v t) :: rest) = numGets rest := by
            simp [numGets, List.countP_cons]
          have hs := set_preserves_hits_misses s now k v t
          rw [hrun, hc, hnum]
          exact ⟨⟨by rw [ih1, hstep, hs.1], by rw [ih2, hstep, hs.2]⟩, ih3⟩
      | opDel k =>
          have hstep : stepOp s (now, .opDel k) = (s.delete k).2 := rfl
          have hc : opCounts s ((now, CacheOp.opDel k) :: rest)
              = opCounts (stepOp s (now, .opDel k)) rest := by
            simp [opCounts]
          have hnum : numGets ((now, CacheOp.opDel k) :: rest) = numGets rest := by
            simp [numGets, List.countP_cons]
          have hs := delete_preserves_hits_misses s k
          rw [hrun, hc, hnum]
          exact ⟨⟨by rw [ih1, hstep, hs.1], by rw [ih2, hstep, hs.2]⟩, ih3⟩

/-!
### Claim C7 — ring-buffer boundedness
-/

theorem foldl_pushMax (cap : Nat) (hcap : 0 < cap) (l : List α) :
    l.foldl (pushMax cap) [] = l.drop (l.length - cap) := by
  induction l using List.reverseRecOn with
  | nil => simp
  | append_singleton ys y ih =>
      rw [List.foldl_append]
      simp only [List.foldl_cons, List.foldl_nil]
      rw [ih]
      by_cases hlt : ys.length < cap
      · have h1 : ys.length - cap = 0 := by omega
        have h2 : (ys ++ [y]).length - cap = 0 := by
          simp only [List.length_append, List.length_cons, List.length_nil]
          omega
        rw [h1, h2, List.drop_zero, List.drop_zero]
        unfold pushMax
        rw [if_pos hlt]
      · have hge : cap ≤ ys.length := by omega
        have hlen : (ys.drop (ys.length - cap)).length = cap := by
          rw [List.length_drop]
          omega
        unfold pushMax
        rw [if_neg (by omega : ¬ (ys.drop (ys.length - cap)).length < cap), hlen]
        have h3 : cap - cap + 1 = 1 := by omega
        rw [h3, List.drop_drop]
        have h4 : (ys ++ [y]).length - cap = ys.length + 1 - cap := by
          simp only [List.length_append, List.length_cons, List.length_nil]
        rw [h4, List.drop_append_of_le_length (by omega : ys.length + 1 - cap ≤ ys.length)]
        have h5 : ys.length - cap + 1 = ys.length + 1 - cap := by omega
        rw [h5]

theorem metrics_fold (s : PerformanceMonitor) (l : List RequestObs) :
    (recordAll s l).metrics
      = l.foldl (fun acc o => pushMax METRICS_MAXLEN acc (obsMetric o)) s.metrics := by
  induction l generalizing s with
  | nil => rfl
  | cons o rest ih =>
      show (recordAll (s.record_request o) rest).metrics = _
      exact ih (s.record_request o)

/-- C7: after recording `capacity + K` observations into a fresh
aggregator (capacity 10,000), the window holds exactly the `capacity`
most recent ones — observations `K+1` through `capacity+K` — the oldest
`K` having been silently dropped. -/
theorem ring_buffer_keeps_most_recent (args : List RequestObs) (K : Nat)
    (h : args.length = METRICS_MAXLEN + K) :
    (recordAll PerformanceMonitor.init args).metrics = (args.map obsMetric).drop K ∧
    ((recordAll PerformanceMonitor.init args).metrics).length = METRICS_MAXLEN := by
  have h1 : (recordAll PerformanceMonitor.init args).metrics
      = (args.map obsMetric).foldl (pushMax METRICS_MAXLEN) [] := by
    rw [metrics_fold, ← List.foldl_map]
    rfl
  have h2 := foldl_pushMax METRICS_MAXLEN (by norm_num [METRICS_MAXLEN]) (args.map obsMetric)
  have hlen : (args.map obsMetric).length = METRICS_MAXLEN + K := by
    rw [List.length_map, h]
  have hd : (args.map obsMetric).length - METRICS_MAXLEN = K := by omega
  rw [h1, h2, hd]
  refine ⟨rfl, ?_⟩
  rw [List.length_drop, hlen]
  omega

/-- A fixed observation for the C7 witness. -/
def obsW : RequestObs := ⟨"api", 1, 200, false, 0, 0⟩

/-- C7 witness: exactly `capacity` observations (`K = 0`) are all
retained. -/
theorem ring_buffer_keeps_most_recent_witness :
    (recordAll PerformanceMonitor.init (List.replicate METRICS_MAXLEN obsW)).metrics
      = ((List.replicate METRICS_MAXLEN obsW).map obsMetric).drop 0 ∧
    ((recordAll PerformanceMonitor.init (List.replicate METRICS_MAXLEN obsW)).metrics).length
      = METRICS_MAXLEN :=
  ring_buffer_keeps_most_recent (List.replicate METRICS_MAXLEN obsW) 0 (by simp)

end Problem3
